import Mathlib

/-!
Shallow embedding of the NBRH user-dashboard core (src/api/user-dashboard.ts):
session partitioning, statistics aggregation, and the recommendation
scoring/ranking engine, together with theorems checking the specification's
claims against this embedding.

Modelling conventions:
* JS strings are Lean `String`s; `String.prototype.includes`, `trim`,
  `toLowerCase` are re-implemented structurally over the character list so
  that every definition kernel-evaluates.
* A raw date string is modelled by its two observable features: whether it is
  empty (JS falsy, relevant for `||` fallbacks) and its `new Date(...)` parse
  result, a day number at midnight (`none` models an Invalid Date / NaN).
  Comparisons against NaN are false, as in JS.
* JS numbers that carry currency amounts are modelled as `ℚ` (the already
  parsed `parsePrice` value); scores are `ℕ` (all contributions are
  non-negative integers); `Math.floor(score * 0.4)` is `score * 2 / 5`,
  which agrees with the float computation on the reachable score range.
* `Array.prototype.sort` (stable in JS) is modelled by the stable structural
  `List.insertionSort` with the relation "comparator result ≤ 0", NaN
  comparator results counting as 0.
* The current moment is passed explicitly (`now : Int`, a day number), as the
  spec requires for determinism.
-/

/-- JS whitespace test used by `String.prototype.trim` (ASCII subset). -/
def jsIsWs (c : Char) : Bool :=
  c == ' ' || c == '\t' || c == '\n' || c == '\r'

/-- Lowercase a string characterwise, modelling `String.prototype.toLowerCase`. -/
def strLower (s : String) : String :=
  ⟨s.data.map Char.toLower⟩

/-- Trim leading and trailing whitespace, modelling `String.prototype.trim`. -/
def strTrim (s : String) : String :=
  ⟨(((s.data.dropWhile jsIsWs).reverse).dropWhile jsIsWs).reverse⟩

/-- Uppercase the first character, modelling `s.charAt(0).toUpperCase() + s.slice(1)`. -/
def strCapitalize (s : String) : String :=
  match s.data with
  | [] => ⟨[]⟩
  | c :: t => ⟨c.toUpper :: t⟩

/-- Containment of `nd` as a contiguous run inside `hay` (character lists). -/
def listInfixB (nd : List Char) : List Char → Bool
  | [] => nd.isEmpty
  | c :: t => nd.isPrefixOf (c :: t) || listInfixB nd t

/-- Substring containment, modelling `hay.includes(nd)`. -/
def strIncludes (hay nd : String) : Bool :=
  listInfixB nd.data hay.data

/-- Join a list of strings with a separator, modelling `Array.prototype.join`. -/
def joinWithSep (sep : String) : List String → String
  | [] => ""
  | [s] => s
  | s :: rest => s ++ sep ++ joinWithSep sep rest

/-- Word character for the JS regex `\b` boundary: `[A-Za-z0-9_]`. -/
def isWordChar (c : Char) : Bool :=
  c.isAlphanum || c == '_'

/-- Word-character test where `none` stands for the edge of the string. -/
def isWordOpt : Option Char → Bool
  | some c => isWordChar c
  | none => false

/-- A `\b` boundary holds between two positions iff exactly one side is a word char. -/
def wbBoundary (a b : Option Char) : Bool :=
  isWordOpt a != isWordOpt b

/-- Does the literal `needle`, wrapped in `\b...\b`, match at the head of `text`,
where `prev` is the character just before this position (`none` at the start)? -/
def wbMatchesAt (needle : List Char) (prev : Option Char) (text : List Char) : Bool :=
  match needle with
  | [] => wbBoundary prev text.head?
  | _ =>
    needle.isPrefixOf text &&
    wbBoundary prev needle.head? &&
    wbBoundary needle.getLast? (text.drop needle.length).head?

/-- Search all positions of `text` for a `\b needle \b` match. -/
def wbSearch (needle : List Char) : Option Char → List Char → Bool
  | prev, [] => wbMatchesAt needle prev []
  | prev, c :: t => wbMatchesAt needle prev (c :: t) || wbSearch needle (some c) t

/-- Model of `new RegExp('\\b' + needle + '\\b', 'i').test(text)` for a literal
needle (both sides are already lowercased at every call site). -/
def regexWordBoundaryTest (needle text : String) : Bool :=
  wbSearch needle.data none text.data

/-- Observable content of a raw date string: emptiness (JS falsiness) and the
`new Date(...)` parse result as a midnight day number (`none` = Invalid Date). -/
structure DateStr where
  isEmpty : Bool
  parsed : Option Int
deriving DecidableEq

/-- Parse result of `new Date(s)` for the string modelled by `d`; the empty
string parses to an Invalid Date. -/
def jsParseDate (d : DateStr) : Option Int :=
  if d.isEmpty then none else d.parsed

/-- JS `a || b` on raw date strings: the empty string is falsy. -/
def jsDateOr (a b : DateStr) : DateStr :=
  if a.isEmpty then b else a

/-- JS `a || b` on an optional raw date string (`none` models `undefined`). -/
def jsOrDate (a : Option DateStr) (b : DateStr) : DateStr :=
  match a with
  | some d => jsDateOr d b
  | none => b

/-- JS `a || b` on an optional string: `undefined` and `''` are falsy. -/
def jsOrStr (a : Option String) (b : String) : String :=
  match a with
  | some s => if s = "" then b else s
  | none => b

/-- JS `a || b` on two strings: `''` is falsy. -/
def jsOrStr2 (a b : String) : String :=
  if a = "" then b else a

/-- JS `a || b` on an optional number: `undefined` and `0` are falsy. -/
def jsOrNum (a : Option ℚ) (b : ℚ) : ℚ :=
  match a with
  | some x => if x = 0 then b else x
  | none => b

/-- JS comparison `d >= now` where `d` may be NaN (comparisons with NaN are false). -/
def jsGeNow (d : Option Int) (now : Int) : Bool :=
  match d with
  | some t => now ≤ t
  | none => false

/-- JS comparison `d < now` where `d` may be NaN (comparisons with NaN are false). -/
def jsLtNow (d : Option Int) (now : Int) : Bool :=
  match d with
  | some t => t < now
  | none => false

/-- Value of the JS sort comparator `ta - tb` on two `getTime()` results, with a
NaN result modelled as 0 (a NaN comparator result is treated as equality). -/
def jsCmpAsc (a b : Option Int) : Int :=
  match a, b with
  | some x, some y => x - y
  | _, _ => 0

/-- Value of the JS sort comparator `tb - ta`, with NaN modelled as 0. -/
def jsCmpDesc (a b : Option Int) : Int :=
  match a, b with
  | some x, some y => y - x
  | _, _ => 0

/-- Model of `Math.round` on exact rationals: round half up. -/
def jsRound (q : ℚ) : ℤ :=
  ⌊q + 1/2⌋

/-- Weekday names indexed by `Date.prototype.getDay` (0 = Sunday). -/
def dayNames : List String :=
  ["Sunday", "Monday", "Tuesday", "Wednesday", "Thursday", "Friday", "Saturday"]

/-- Model of `getDayOfWeek`: weekday name of a raw date string, `none` when the
date does not parse (day 0 of the model's epoch is a Thursday, as 1970-01-01). -/
def getDayOfWeek (d : DateStr) : Option String :=
  (jsParseDate d).map (fun t => dayNames.getD ((t + 4).emod 7).toNat "")

/-- Model of `formatTime` from the source (returns `''` on empty input). -/
def formatTime (time : String) : String :=
  if time = "" then "" else time

/-- Model of `getDateBadge`: relative badge for a date, `none` on Invalid Date
or when more than 14 days away. -/
def getDateBadge (now : Int) (d : DateStr) : Option String :=
  match jsParseDate d with
  | none => none
  | some t =>
    let diffDays := t - now
    if diffDays = 0 then some "Today"
    else if diffDays = 1 then some "Tomorrow"
    else if 0 < diffDays ∧ diffDays ≤ 7 then some "This week"
    else if 7 < diffDays ∧ diffDays ≤ 14 then some "Next week"
    else none

/-- User profile record (already parsed by the external collaborator). -/
structure UserProfile where
  email : String
  firstName : String
  lastName : String
  homeBorough : String
  preferredSports : List String
  preferredDays : List String
  preferredTimes : List String
  fitnessLevel : String
  motivations : List String
  sessionFormatPreference : String
  gender : String
deriving DecidableEq

/-- One scheduled bookable event instance. -/
structure Event where
  eventID : String
  sessionTemplateID : String
  eventName : String
  category : String
  date : DateStr
  time : String
  endTime : String
  location : String
  borough : String
  price : ℚ
  spotsRemaining : Int
  bookingUrl : String
  durationMinutes : Int
  active : String
  attendeesUrl : String
  attendeesPublicUrl : String
  imageUrl : String
  genderTarget : String
  motivations : List String
  sessionFormat : String
deriving DecidableEq

/-- A user's reservation against one event; `amountPaid` is modelled as the
already parsed `parsePrice` value of the raw amount string. -/
structure Booking where
  bookingID : String
  bookingDate : String
  eventID : String
  eventName : String
  customerEmail : String
  amountPaid : ℚ
  status : String
  skillLevel : String
  eventDate : DateStr
  eventTime : String
  eventLocation : String
deriving DecidableEq

/-- Display card for a booked session. -/
structure SessionCard where
  eventID : String
  title : String
  sport : String
  date : DateStr
  time : String
  venue : String
  borough : String
  price : ℚ
  badge : Option String
  difficulty : String
  bookingID : String
  attendanceStatus : Option String
  attendeeUrl : String
  image : String
deriving DecidableEq

/-- Display card for a recommended event. -/
structure RecommendationCard where
  eventID : String
  title : String
  sport : String
  date : DateStr
  time : String
  venue : String
  borough : String
  price : ℚ
  difficulty : String
  score : ℕ
  displayPercentage : ℤ
  reason : String
  attendeeUrl : String
  image : String
  bookingUrl : String
deriving DecidableEq

/-- Aggregate participation statistics. -/
structure UserStats where
  totalBooked : ℕ
  totalAttended : ℕ
  totalHoursPlayed : ℚ
  totalSpent : ℚ
  mostPlayedSport : Option String
  mostCommonDay : Option String
deriving DecidableEq

/-- Result of `checkGenderCompatibility`. -/
structure GenderCheck where
  isCompatible : Bool
  bonusPoints : ℕ
  matchReason : Option String
deriving DecidableEq

/-- Result of `separateSessions`. -/
structure SepResult where
  upcoming : List SessionCard
  past : List SessionCard
  pastTotal : ℕ
deriving DecidableEq

/-- Result of `matchesSkillLevel` (the source field `matches` is a reserved
word in Lean and is rendered as `isMatch`). -/
structure SkillMatch where
  isMatch : Bool
  level : String
deriving DecidableEq

/-- Gazetteer of London borough names used by `extractBorough`. -/
def londonBoroughs : List String :=
  ["Westminster", "Camden", "Islington", "Hackney", "Tower Hamlets", "Greenwich",
   "Lewisham", "Southwark", "Lambeth", "Wandsworth", "Hammersmith", "Fulham",
   "Kensington", "Chelsea", "Brent", "Ealing", "Hounslow", "Richmond", "Kingston",
   "Merton", "Sutton", "Croydon", "Bromley", "Bexley", "Havering", "Barking",
   "Dagenham", "Redbridge", "Newham", "Waltham Forest", "Haringey", "Enfield",
   "Barnet", "Harrow", "Hillingdon"]

/-- Postcode-or-country alternatives of the regex
`/ (UK|N1|N2|N3|N4|N5|N6|N7|N8|N9|N10|SW1|SW2|SW3|SE1|SE2|SE3|E1|E2|E3|W1|W2|W3|NW1|NW2)/`. -/
def postcodeTokens : List String :=
  ["UK", "N1", "N2", "N3", "N4", "N5", "N6", "N7", "N8", "N9", "N10",
   "SW1", "SW2", "SW3", "SE1", "SE2", "SE3", "E1", "E2", "E3",
   "W1", "W2", "W3", "NW1", "NW2"]

/-- Split a character list at commas, modelling `String.prototype.split(',')`. -/
def splitOnCommaChars : List Char → List (List Char)
  | [] => [[]]
  | c :: t =>
    if c == ',' then [] :: splitOnCommaChars t
    else
      match splitOnCommaChars t with
      | [] => [[c]]
      | h :: r => (c :: h) :: r

/-- Filter of `extractBorough` selecting "meaningful" comma segments. -/
def isMeaningfulPart (part : String) : Bool :=
  !strIncludes (strLower part) "uk" &&
  !strIncludes (strLower part) "england" &&
  part != "London" &&
  !(postcodeTokens.any (fun tk => strIncludes part (" " ++ tk)))

/-- Model of `extractBorough`: gazetteer lookup, then the comma-segment heuristic. -/
def extractBorough (location : String) : String :=
  if location = "" then ""
  else
    let locationLower := strLower location
    match londonBoroughs.find? (fun b => strIncludes locationLower (strLower b)) with
    | some borough => borough
    | none =>
      let parts := (splitOnCommaChars location.data).map (fun cs => strTrim ⟨cs⟩)
      let meaningfulParts := parts.filter isMeaningfulPart
      if 2 ≤ meaningfulParts.length then meaningfulParts.getD (meaningfulParts.length - 2) ""
      else if meaningfulParts.length = 1 then meaningfulParts.getD 0 ""
      else jsOrStr2 (parts.headD "") ""

/-- Borough membership lists of the five coarse London regions, in source order. -/
def LONDON_REGIONS : List (String × List String) :=
  [("East", ["Hackney", "Tower Hamlets", "Newham", "Waltham Forest", "Redbridge",
             "Barking", "Dagenham", "Havering"]),
   ("West", ["Hammersmith", "Fulham", "Ealing", "Hounslow", "Brent", "Hillingdon", "Harrow"]),
   ("North", ["Camden", "Islington", "Haringey", "Enfield", "Barnet"]),
   ("South", ["Lambeth", "Southwark", "Lewisham", "Greenwich", "Bromley", "Croydon",
              "Sutton", "Merton"]),
   ("Central", ["Westminster", "Kensington", "Chelsea", "City of London"])]

/-- Model of `getBoroughRegion`: first region whose member list has a
case-insensitive substring hit inside the given borough text. -/
def getBoroughRegion (borough : String) : Option String :=
  (LONDON_REGIONS.find? (fun rb =>
    rb.2.any (fun b => strIncludes (strLower borough) (strLower b)))).map (fun rb => rb.1)

/-- Model of `checkGenderCompatibility`. The source's two `if` blocks with
internal `if / else if` and fall-through are linearized into guarded returns
in the same evaluation order. -/
def checkGenderCompatibility (sessionGenderTarget userGender : String) : GenderCheck :=
  let sessionTarget := strLower (strTrim sessionGenderTarget)
  let userGen := strLower (strTrim userGender)
  if sessionTarget = "" ∨ userGen = "" then ⟨true, 0, none⟩
  else if (strIncludes sessionTarget "women only" || sessionTarget == "women only") &&
          userGen == "female" then
    ⟨true, 30, some "women\u0027s session"⟩
  else if (strIncludes sessionTarget "women only" || sessionTarget == "women only") &&
          userGen == "male" then
    ⟨false, 0, none⟩
  else if (sessionTarget == "men" || sessionTarget == "men only" ||
           strIncludes sessionTarget "men only") && userGen == "male" then
    ⟨true, 30, some "men\u0027s session"⟩
  else if (sessionTarget == "men" || sessionTarget == "men only" ||
           strIncludes sessionTarget "men only") && userGen == "female" then
    ⟨false, 0, none⟩
  else ⟨true, 0, none⟩

/-- Model of `calculateDisplayPercentage`: piecewise curve from raw score to a
display percentage, arithmetic idealized over exact rationals. -/
def calculateDisplayPercentage (rawScore : ℚ) : ℤ :=
  if 120 ≤ rawScore then
    jsRound (80 + min ((rawScore - 120) / (260 - 120)) 1 * 20)
  else if 90 ≤ rawScore then
    jsRound (60 + (rawScore - 90) / (119 - 90) * 19)
  else if 60 ≤ rawScore then
    jsRound (40 + (rawScore - 60) / (89 - 60) * 19)
  else if 40 ≤ rawScore then
    jsRound (25 + (rawScore - 40) / (59 - 40) * 14)
  else
    jsRound (10 + min (rawScore / 39) 1 * 14)

/-- Children/youth-session keyword list of `isChildrenSession`. -/
def childKeywords : List String :=
  ["kids", "children", "child", "youth", "junior", "juniors",
   "under 16", "under 18", "u16", "u18", "u14", "u12", "u10",
   "primary school", "secondary school", "school kids", "school-age"]

/-- Model of `isChildrenSession`. -/
def isChildrenSession (eventName eventCategory : String) : Bool :=
  let text := strLower (eventName ++ " " ++ eventCategory)
  childKeywords.any (fun keyword => strIncludes text keyword)

/-- Compound-football exclusion list of `isSportMatch`. -/
def footballCompounds : List String :=
  ["american football", "american flag football", "flag football",
   "australian rules football", "afl", "gridiron"]

/-- Positive football keyword list of `isSportMatch`. -/
def footballKeywords : List String :=
  ["football", "soccer", "5-a-side", "7-a-side", "11-a-side"]

/-- Model of `isSportMatch`: exact category compare, special football and boxing
handling, else a `\b`-word-boundary match against category or name. -/
def isSportMatch (userSport eventCategory eventName : String) : Bool :=
  let userSportLower := strTrim (strLower userSport)
  let categoryLower := strTrim (strLower eventCategory)
  let nameLower := strTrim (strLower eventName)
  if userSportLower == categoryLower then true
  else if userSportLower == "football" then
    let textToCheck := categoryLower ++ " " ++ nameLower
    if footballCompounds.any (fun compound => strIncludes textToCheck compound) then false
    else footballKeywords.any (fun keyword =>
      strIncludes categoryLower keyword || strIncludes nameLower keyword)
  else if userSportLower == "boxing" then
    if isChildrenSession eventName eventCategory then false
    else strIncludes categoryLower "boxing" || strIncludes nameLower "boxing"
  else
    regexWordBoundaryTest userSportLower categoryLower ||
    regexWordBoundaryTest userSportLower nameLower

/-- Skill-level keyword list of `matchesSkillLevel`. -/
def skillLevels : List String :=
  ["beginner", "intermediate", "advanced", "all levels", "mixed ability"]

/-- Loop of `matchesSkillLevel`: first keyword present in the event name that
either accepts all levels or relates to the user's level text. -/
def skillLoop (eventLower userLower : String) : List String → Option String
  | [] => none
  | level :: rest =>
    if strIncludes eventLower level &&
       (level == "all levels" || level == "mixed ability" ||
        strIncludes userLower level || strIncludes level userLower) then some level
    else skillLoop eventLower userLower rest

/-- Model of `matchesSkillLevel`. -/
def matchesSkillLevel (eventName userLevel : String) : SkillMatch :=
  if userLevel = "" then ⟨false, ""⟩
  else
    match skillLoop (strLower eventName) (strLower userLevel) skillLevels with
    | some level => ⟨true, level⟩
    | none => ⟨false, ""⟩

/-- Model of `createSessionCardFromBooking`, including all the per-field
`event?.field || booking.field` truthiness fallbacks of the source. -/
def createSessionCardFromBooking (now : Int) (booking : Booking) (event : Option Event)
    (isPast : Bool) : SessionCard :=
  let eventName := jsOrStr (event.map (fun e => e.eventName)) booking.eventName
  let eventDate := jsOrDate (event.map (fun e => e.date)) booking.eventDate
  let eventTime := jsOrStr (event.map (fun e => e.time)) booking.eventTime
  let location := jsOrStr (event.map (fun e => e.location)) booking.eventLocation
  let price := jsOrNum (event.map (fun e => e.price)) booking.amountPaid
  let category := jsOrStr (event.map (fun e => e.category)) ""
  let borough := jsOrStr (event.map (fun e => e.borough)) (extractBorough location)
  let attendeeUrl := jsOrStr (event.map (fun e => e.attendeesPublicUrl))
    (jsOrStr (event.map (fun e => e.attendeesUrl)) "")
  let image := jsOrStr (event.map (fun e => e.imageUrl)) ""
  { eventID := booking.eventID
    title := eventName
    sport := category
    date := eventDate
    time := formatTime eventTime
    venue := location
    borough := borough
    price := price
    badge := if isPast then none else getDateBadge now eventDate
    difficulty := jsOrStr2 booking.skillLevel ""
    bookingID := booking.bookingID
    attendanceStatus := if isPast then some booking.status else none
    attendeeUrl := attendeeUrl
    image := image }

/-- Lookup in the `new Map(events.map(e => [e.eventID, e]))` event map: later
entries overwrite earlier ones, so the last matching event wins. -/
def jsMapGet (events : List Event) (id : String) : Option Event :=
  events.reverse.find? (fun e => e.eventID == id)

/-- Resolved comparison date of a booking: `new Date(event?.date || booking.eventDate)`
with the event looked up in the event map. -/
def resolvedEventDate (events : List Event) (b : Booking) : Option Int :=
  jsParseDate (jsOrDate ((jsMapGet events b.eventID).map (fun e => e.date)) b.eventDate)

/-- Past test of the partition loop: resolved date strictly before today,
false when the resolved date is unparseable. -/
def isPastBooking (now : Int) (events : List Event) (b : Booking) : Bool :=
  jsLtNow (resolvedEventDate events b) now

/-- Session card built for a booking inside the partition loop. -/
def sessionCardOf (now : Int) (events : List Event) (b : Booking) : SessionCard :=
  createSessionCardFromBooking now b (jsMapGet events b.eventID) (isPastBooking now events b)

/-- Main loop of `separateSessions`: skip already seen booking ids, then route
each booking's card into the upcoming or past bucket. -/
def sepLoop (now : Int) (events : List Event) : List String → List Booking →
    List SessionCard × List SessionCard
  | _, [] => ([], [])
  | seen, b :: rest =>
    if seen.contains b.bookingID then sepLoop now events seen rest
    else
      let card := sessionCardOf now events b
      let res := sepLoop now events (b.bookingID :: seen) rest
      if isPastBooking now events b then (res.1, card :: res.2) else (card :: res.1, res.2)

/-- Deduplication by booking id, keeping first occurrences, starting from an
initial set of already seen ids. -/
def dedupBookingsFrom (seen : List String) : List Booking → List Booking
  | [] => []
  | b :: rest =>
    if seen.contains b.bookingID then dedupBookingsFrom seen rest
    else b :: dedupBookingsFrom (b.bookingID :: seen) rest

/-- Unique bookings of a list, first occurrence per booking id kept. -/
def dedupBookings (bookings : List Booking) : List Booking :=
  dedupBookingsFrom [] bookings

/-- Unsorted partition of the unique bookings into upcoming and past cards. -/
def sessionPartition (now : Int) (events : List Event) (bookings : List Booking) :
    List SessionCard × List SessionCard :=
  sepLoop now events [] bookings

/-- Sort relation of `upcoming.sort((a, b) => new Date(a.date) - new Date(b.date))`. -/
def upcomingLe (a b : SessionCard) : Prop :=
  jsCmpAsc (jsParseDate a.date) (jsParseDate b.date) ≤ 0

instance : DecidableRel upcomingLe :=
  fun a b => inferInstanceAs (Decidable (_ ≤ _))

/-- Sort relation of `past.sort((a, b) => new Date(b.date) - new Date(a.date))`. -/
def pastLe (a b : SessionCard) : Prop :=
  jsCmpDesc (jsParseDate a.date) (jsParseDate b.date) ≤ 0

instance : DecidableRel pastLe :=
  fun a b => inferInstanceAs (Decidable (_ ≤ _))

/-- Upcoming cards sorted ascending by date. -/
def sortedUpcoming (now : Int) (events : List Event) (bookings : List Booking) :
    List SessionCard :=
  List.insertionSort upcomingLe (sessionPartition now events bookings).1

/-- Past cards sorted descending by date, before pagination. -/
def sortedPastAll (now : Int) (events : List Event) (bookings : List Booking) :
    List SessionCard :=
  List.insertionSort pastLe (sessionPartition now events bookings).2

/-- Model of `separateSessions`: dedup, partition, sort both buckets, paginate
only the past bucket, and report the pre-pagination past count. -/
def separateSessions (bookings : List Booking) (events : List Event) (now : Int)
    (page pageSize : ℕ) : SepResult :=
  let sortedPast := sortedPastAll now events bookings
  let start := (page - 1) * pageSize
  { upcoming := sortedUpcoming now events bookings
    past := (sortedPast.drop start).take pageSize
    pastTotal := sortedPast.length }

/-- Attendance predicate of `calculateStats` (the body of `bookings.filter`):
not on-or-after today, then keyword interpretation of the status text with a
default-attended policy. -/
def isAttendedBooking (now : Int) (b : Booking) : Bool :=
  if jsGeNow (jsParseDate b.eventDate) now then false
  else
    let status := strLower b.status
    if strIncludes status "attended" || strIncludes status "completed" then true
    else if strIncludes status "confirmed" then true
    else if strIncludes status "cancelled" || strIncludes status "cancel" ||
            strIncludes status "no-show" || strIncludes status "noshow" then false
    else true

/-- Attended subset of the bookings, as computed by `calculateStats`. -/
def attendedBookings (now : Int) (bookings : List Booking) : List Booking :=
  bookings.filter (isAttendedBooking now)

/-- Cancellation test of the `totalSpent` accumulator. -/
def isCancelledForSpend (b : Booking) : Bool :=
  strIncludes (strLower b.status) "cancelled" || strIncludes (strLower b.status) "cancel"

/-- Resolved duration of an attended booking, 90 minutes when the event is absent. -/
def bookingMinutes (events : List Event) (b : Booking) : Int :=
  match jsMapGet events b.eventID with
  | some e => e.durationMinutes
  | none => 90

/-- Bump a frequency count in an insertion-ordered association list, modelling
`map.set(k, (map.get(k) || 0) + 1)`. -/
def bumpCount : List (String × ℕ) → String → List (String × ℕ)
  | [], k => [(k, 1)]
  | p :: t, k => if p.1 == k then (p.1, p.2 + 1) :: t else p :: bumpCount t k

/-- Sort relation of `entries.sort((a, b) => b[1] - a[1])` on count entries. -/
def countDescLe (a b : String × ℕ) : Prop :=
  (b.2 : Int) - (a.2 : Int) ≤ 0

instance : DecidableRel countDescLe :=
  fun a b => inferInstanceAs (Decidable (_ ≤ _))

/-- Highest-count key of a frequency table (stable sort descending, first entry),
`none` for an empty table. -/
def topCount (m : List (String × ℕ)) : Option String :=
  ((List.insertionSort countDescLe m).head?).map (fun p => p.1)

/-- Model of `calculateStats`. -/
def calculateStats (bookings : List Booking) (events : List Event) (now : Int) : UserStats :=
  let attended := attendedBookings now bookings
  let totalSpent := bookings.foldl
    (fun sum b => if isCancelledForSpend b then sum else sum + b.amountPaid) 0
  let totalMinutes := attended.foldl (fun acc b => acc + bookingMinutes events b) 0
  let sportCounts := attended.foldl
    (fun m b =>
      match jsMapGet events b.eventID with
      | some e => if e.category = "" then m else bumpCount m e.category
      | none => m) []
  let dayCounts := attended.foldl
    (fun m b =>
      match getDayOfWeek b.eventDate with
      | some day => bumpCount m day
      | none => m) []
  { totalBooked := bookings.length
    totalAttended := attended.length
    totalHoursPlayed := (jsRound ((totalMinutes : ℚ) / 60 * 10) : ℚ) / 10
    totalSpent := (jsRound (totalSpent * 100) : ℚ) / 100
    mostPlayedSport := topCount sportCounts
    mostCommonDay := topCount dayCounts }

/-- Active-flag test of the recommendation eligibility filter. -/
def isActiveEvent (e : Event) : Bool :=
  strLower e.active == "true" || strLower e.active == "yes"

/-- Eligibility filters of `generateRecommendations`, in source order: future,
active, unbooked; then not a children/youth session; then gender-compatible. -/
def recommendationCandidates (now : Int) (events : List Event) (profile : UserProfile)
    (bookings : List Booking) : List Event :=
  let bookedEventIDs := bookings.map (fun b => b.eventID)
  (((events.filter (fun e =>
      jsGeNow (jsParseDate e.date) now && isActiveEvent e &&
      !(bookedEventIDs.contains e.eventID))).filter (fun e =>
      !isChildrenSession e.eventName e.category)).filter (fun e =>
      (checkGenderCompatibility e.genderTarget profile.gender).isCompatible))

/-- Region of the user's home borough (`null` when no home borough is set). -/
def userRegionOf (profile : UserProfile) : Option String :=
  if profile.homeBorough = "" then none else getBoroughRegion profile.homeBorough

/-- Sport-match test of the scorer: some preferred sport matches the event. -/
def hasSportMatchB (profile : UserProfile) (event : Event) : Bool :=
  profile.preferredSports.any (fun s => isSportMatch s event.category event.eventName)

/-- Explicit-or-derived borough of an event (`event.borough || extractBorough(event.location)`). -/
def eventBoroughOf (event : Event) : String :=
  jsOrStr2 event.borough (extractBorough event.location)

/-- Exact-borough test of the geographic factor. -/
def exactBoroughB (profile : UserProfile) (event : Event) : Bool :=
  profile.homeBorough != "" &&
  strIncludes (strLower (eventBoroughOf event)) (strLower profile.homeBorough)

/-- Regional-fallback test of the geographic factor (only evaluated when the
exact test failed and the user has a region). -/
def regionMatchB (userRegion : Option String) (event : Event) : Bool :=
  match userRegion with
  | some ur => getBoroughRegion (eventBoroughOf event) == some ur
  | none => false

/-- Gender-bonus test of the scorer: positive bonus with a match reason. -/
def genderBonusB (profile : UserProfile) (event : Event) : Bool :=
  let genderCheck := checkGenderCompatibility event.genderTarget profile.gender
  decide (0 < genderCheck.bonusPoints) && genderCheck.matchReason.isSome

/-- Motivation overlaps between user and event (case-insensitive exact). -/
def motivationMatchesOf (profile : UserProfile) (event : Event) : List String :=
  profile.motivations.filter (fun userMotivation =>
    event.motivations.any (fun eventMotivation =>
      strTrim (strLower eventMotivation) == strTrim (strLower userMotivation)))

/-- Motivation-factor test of the scorer. -/
def motivationMatchB (profile : UserProfile) (event : Event) : Bool :=
  !profile.motivations.isEmpty && !event.motivations.isEmpty &&
  !(motivationMatchesOf profile event).isEmpty

/-- Session-format test of the scorer. -/
def formatMatchB (profile : UserProfile) (event : Event) : Bool :=
  profile.sessionFormatPreference != "" && event.sessionFormat != "" &&
  strTrim (strLower profile.sessionFormatPreference) == strTrim (strLower event.sessionFormat)

/-- Preferred-day test of the scorer. -/
def dayMatchB (profile : UserProfile) (event : Event) : Bool :=
  !profile.preferredDays.isEmpty &&
  (match getDayOfWeek event.date with
   | some eventDay => profile.preferredDays.any (fun day => strLower day == strLower eventDay)
   | none => false)

/-- Preferred-time test of the scorer. -/
def timeMatchB (profile : UserProfile) (event : Event) : Bool :=
  !profile.preferredTimes.isEmpty &&
  profile.preferredTimes.any (fun t => strIncludes (strLower event.time) (strLower t))

/-- Sum of every additive factor contribution other than the sport factor, in
source evaluation order. -/
def nonSportPoints (profile : UserProfile) (userRegion : Option String) (event : Event) : ℕ :=
  (if exactBoroughB profile event then 35 else if regionMatchB userRegion event then 25 else 0) +
  (if genderBonusB profile event then
    (checkGenderCompatibility event.genderTarget profile.gender).bonusPoints else 0) +
  (if motivationMatchB profile event then 25 else 0) +
  (if (matchesSkillLevel event.eventName profile.fitnessLevel).isMatch then 25 else 0) +
  (if formatMatchB profile event then 20 else 0) +
  (if dayMatchB profile event then 20 else 0) +
  (if timeMatchB profile event then 15 else 0) +
  (if event.price ≤ 10 then 10 else 0)

/-- Accumulated score before the no-sport-match penalty. -/
def baseScore (profile : UserProfile) (userRegion : Option String) (event : Event) : ℕ :=
  (if hasSportMatchB profile event then 80 else 0) + nonSportPoints profile userRegion event

/-- Final score: the base score, reduced to 40% (integer floor, `score * 2 / 5`)
exactly once when the user has preferred sports and none matched. -/
def finalScore (profile : UserProfile) (userRegion : Option String) (event : Event) : ℕ :=
  if !hasSportMatchB profile event && !profile.preferredSports.isEmpty then
    baseScore profile userRegion event * 2 / 5
  else baseScore profile userRegion event

/-- Reason fragments of the scorer, in evaluation order. -/
def reasonsOf (profile : UserProfile) (userRegion : Option String) (event : Event) :
    List String :=
  (if hasSportMatchB profile event then
    [((profile.preferredSports.find? (fun s =>
        isSportMatch s event.category event.eventName)).getD event.category) ++ " session"]
   else []) ++
  (if exactBoroughB profile event then ["in " ++ eventBoroughOf event]
   else if regionMatchB userRegion event then
    ["in " ++ ((getBoroughRegion (eventBoroughOf event)).getD "") ++ " London"]
   else []) ++
  (if genderBonusB profile event then
    [(checkGenderCompatibility event.genderTarget profile.gender).matchReason.getD ""]
   else []) ++
  (if motivationMatchB profile event then
    ["for " ++ strLower ((motivationMatchesOf profile event).headD "")] else []) ++
  (if (matchesSkillLevel event.eventName profile.fitnessLevel).isMatch then
    [(matchesSkillLevel event.eventName profile.fitnessLevel).level ++ " level"] else []) ++
  (if formatMatchB profile event then [strLower event.sessionFormat ++ " format"] else []) ++
  (if dayMatchB profile event then
    ["on " ++ ((getDayOfWeek event.date).getD "")] else []) ++
  (if timeMatchB profile event then ["at your preferred time"] else []) ++
  (if event.price ≤ 10 ∧ event.price ≤ 5 then ["budget-friendly"] else [])

/-- Scoring map body of `generateRecommendations`: build the scored card of one
candidate event. -/
def scoreEvent (now : Int) (profile : UserProfile) (userRegion : Option String)
    (event : Event) : RecommendationCard :=
  let score := finalScore profile userRegion event
  let reasons := reasonsOf profile userRegion event
  let reason := strCapitalize
    (if reasons.isEmpty then "New session in your area" else joinWithSep " · " reasons)
  { eventID := event.eventID
    title := event.eventName
    sport := event.category
    date := event.date
    time := formatTime event.time
    venue := event.location
    borough := eventBoroughOf event
    price := event.price
    difficulty := jsOrStr2 (matchesSkillLevel event.eventName profile.fitnessLevel).level ""
    score := score
    displayPercentage := calculateDisplayPercentage (score : ℚ)
    reason := reason
    attendeeUrl := jsOrStr2 event.attendeesPublicUrl (jsOrStr2 event.attendeesUrl "")
    image := jsOrStr2 event.imageUrl ""
    bookingUrl := jsOrStr2 event.bookingUrl "" }

/-- Sort relation of `scoredEvents.sort((a, b) => b.score - a.score)`. -/
def scoreDescLe (a b : RecommendationCard) : Prop :=
  b.score ≤ a.score

instance : DecidableRel scoreDescLe :=
  fun a b => inferInstanceAs (Decidable (_ ≤ _))

/-- Quality threshold `MIN_RECOMMENDATION_SCORE` of the ranker. -/
def MIN_RECOMMENDATION_SCORE : ℕ := 60

/-- Deduplication key of a recommendation: the trimmed session-template id of
the first catalog event with the card's event id, falling back to the event id. -/
def keyOfRec (events : List Event) (rec : RecommendationCard) : String :=
  let templateID :=
    match events.find? (fun e => e.eventID == rec.eventID) with
    | some e => strTrim e.sessionTemplateID
    | none => ""
  jsOrStr2 templateID rec.eventID

/-- Deduplicate-and-cap loop of the ranker: keep the first card per key, stop
as soon as five cards are kept. -/
def dedupLoop (events : List Event) : List String → List RecommendationCard →
    List RecommendationCard → List RecommendationCard
  | _, acc, [] => acc.reverse
  | seen, acc, rec :: rest =>
    let key := keyOfRec events rec
    if seen.contains key then dedupLoop events seen acc rest
    else if 5 ≤ (rec :: acc).length then (rec :: acc).reverse
    else dedupLoop events (key :: seen) (rec :: acc) rest

/-- Scored candidates sorted by score descending (stable). -/
def sortedScored (now : Int) (events : List Event) (profile : UserProfile)
    (bookings : List Booking) : List RecommendationCard :=
  List.insertionSort scoreDescLe
    ((recommendationCandidates now events profile bookings).map
      (scoreEvent now profile (userRegionOf profile)))

/-- Scored candidates that pass the quality threshold, still sorted. -/
def qualityRecommendations (now : Int) (events : List Event) (profile : UserProfile)
    (bookings : List Booking) : List RecommendationCard :=
  (sortedScored now events profile bookings).filter
    (fun rec => decide (MIN_RECOMMENDATION_SCORE ≤ rec.score))

/-- Model of `generateRecommendations`: filter eligible events, score, sort by
score descending, apply the quality threshold, deduplicate by session template
and cap at five. -/
def generateRecommendations (events : List Event) (profile : UserProfile)
    (bookings : List Booking) (now : Int) : List RecommendationCard :=
  dedupLoop events [] [] (qualityRecommendations now events profile bookings)

/-- Profile with every optional field empty, the base for concrete test inputs. -/
def emptyProfile : UserProfile :=
  { email := "", firstName := "", lastName := "", homeBorough := "",
    preferredSports := [], preferredDays := [], preferredTimes := [],
    fitnessLevel := "", motivations := [], sessionFormatPreference := "", gender := "" }

/-- Concrete profile of the spec's concrete scenario: Hackney, Football, female,
all other preferences empty. -/
def profileC3 : UserProfile :=
  { emptyProfile with
    email := "user@example.com", homeBorough := "Hackney",
    preferredSports := ["Football"], gender := "female" }

/-- Concrete event of the spec's concrete scenario: Football in Hackney, empty
gender target, price 8, dated tomorrow (day 1 with `now = 0`). -/
def eventC3 : Event :=
  { eventID := "E1", sessionTemplateID := "", eventName := "Football Session",
    category := "Football", date := ⟨false, some 1⟩, time := "18:00", endTime := "",
    location := "Hackney", borough := "Hackney", price := 8, spotsRemaining := 10,
    bookingUrl := "", durationMinutes := 60, active := "TRUE", attendeesUrl := "",
    attendeesPublicUrl := "", imageUrl := "", genderTarget := "", motivations := [],
    sessionFormat := "" }

/-- The scenario event with a "Women Only" gender target. -/
def eventWomenOnly : Event :=
  { eventC3 with eventID := "E2", genderTarget := "Women Only" }

/-- The scenario profile with gender "Male". -/
def profileMale : UserProfile :=
  { profileC3 with gender := "Male" }

/-- Profile preferring Football only, everything else empty. -/
def profileC4 : UserProfile :=
  { emptyProfile with preferredSports := ["Football"] }

/-- Affordable Hackney yoga event: no sport match for a Football-only user. -/
def eventC4 : Event :=
  { eventC3 with eventID := "E4", eventName := "Yoga Flow", category := "Yoga" }

/-- Concrete booking with a past event date (day -1) and status "Confirmed". -/
def bookingBase : Booking :=
  { bookingID := "B1", bookingDate := "", eventID := "E1", eventName := "",
    customerEmail := "", amountPaid := 0, status := "Confirmed", skillLevel := "",
    eventDate := ⟨false, some (-1)⟩, eventTime := "", eventLocation := "" }

/-- Past booking whose status text contains both an attendance keyword and a
cancellation keyword. -/
def bookingAttendedCancelled : Booking :=
  { bookingBase with status := "Attended (cancelled)" }

/-- Catalog event whose raw date string is empty (falsy), so the partitioner's
`event?.date || booking.eventDate` falls back to the booking snapshot. -/
def eventEmptyDate : Event :=
  { eventC3 with eventID := "E9", date := ⟨true, none⟩ }

/-- Booking referencing `eventEmptyDate`, with a past snapshot date. -/
def bookingSnapshotPast : Booking :=
  { bookingBase with bookingID := "B9", eventID := "E9" }

theorem strIncludes_empty_false : strIncludes "" "women only" = false := by
  decide

theorem genderCompat_male_no_women_only (t g : String)
    (hg : strLower (strTrim g) = "male")
    (hc : (checkGenderCompatibility t g).isCompatible = true) :
    strIncludes (strLower (strTrim t)) "women only" = false := by
  by_contra hw
  rw [Bool.not_eq_false] at hw
  have hres : checkGenderCompatibility t g = ⟨false, 0, none⟩ := by
    unfold checkGenderCompatibility
    have hA : ¬(strLower (strTrim t) = "" ∨ strLower (strTrim g) = "") := by
      rintro (h | h)
      · rw [h] at hw
        exact absurd hw (by decide)
      · rw [hg] at h
        exact absurd h (by decide)
    have hB : ¬(((strIncludes (strLower (strTrim t)) "women only" ||
        strLower (strTrim t) == "women only") && (strLower (strTrim g) == "female")) = true) := by
      rw [hg]
      simp
    have hC : ((strIncludes (strLower (strTrim t)) "women only" ||
        strLower (strTrim t) == "women only") && (strLower (strTrim g) == "male")) = true := by
      rw [hg, hw]
      simp
    rw [if_neg hA, if_neg hB, if_pos hC]
  rw [hres] at hc
  exact absurd hc (by decide)

theorem genderCompat_female_no_men (t g : String)
    (hg : strLower (strTrim g) = "female")
    (hc : (checkGenderCompatibility t g).isCompatible = true) :
    (strLower (strTrim t) == "men" || strLower (strTrim t) == "men only" ||
     (strIncludes (strLower (strTrim t)) "men only" &&
      !strIncludes (strLower (strTrim t)) "women only")) = false := by
  by_contra hbad
  rw [Bool.not_eq_false] at hbad
  simp only [Bool.or_eq_true, Bool.and_eq_true, beq_iff_eq, Bool.not_eq_true'] at hbad
  have hwomen : strIncludes (strLower (strTrim t)) "women only" = false := by
    rcases hbad with (h | h) | ⟨_, h⟩
    · rw [h]; decide
    · rw [h]; decide
    · exact h
  have hmen : (strLower (strTrim t) == "men" || strLower (strTrim t) == "men only" ||
      strIncludes (strLower (strTrim t)) "men only") = true := by
    rcases hbad with (h | h) | ⟨h, _⟩ <;> simp [h]
  have hne : strLower (strTrim t) ≠ "women only" := by
    intro h
    rw [h] at hwomen
    exact absurd hwomen (by decide)
  have hres : checkGenderCompatibility t g = ⟨false, 0, none⟩ := by
    unfold checkGenderCompatibility
    have hA : ¬(strLower (strTrim t) = "" ∨ strLower (strTrim g) = "") := by
      rintro (h | h)
      · rw [h] at hmen
        exact absurd hmen (by decide)
      · rw [hg] at h
        exact absurd h (by decide)
    have hB : ¬(((strIncludes (strLower (strTrim t)) "women only" ||
        strLower (strTrim t) == "women only") && (strLower (strTrim g) == "female")) = true) := by
      rw [hwomen]
      simp [hne]
    have hC : ¬(((strIncludes (strLower (strTrim t)) "women only" ||
        strLower (strTrim t) == "women only") && (strLower (strTrim g) == "male")) = true) := by
      rw [hg, hwomen]
      simp [hne]
    have hD : ¬(((strLower (strTrim t) == "men" || strLower (strTrim t) == "men only" ||
        strIncludes (strLower (strTrim t)) "men only") &&
        (strLower (strTrim g) == "male")) = true) := by
      rw [hg]
      simp
    have hE : ((strLower (strTrim t) == "men" || strLower (strTrim t) == "men only" ||
        strIncludes (strLower (strTrim t)) "men only") &&
        (strLower (strTrim g) == "female")) = true := by
      rw [hg, hmen]
      simp
    rw [if_neg hA, if_neg hB, if_neg hC, if_neg hD, if_pos hE]
  rw [hres] at hc
  exact absurd hc (by decide)

/-- C10: a user whose normalized gender is non-empty and neither "male" nor
"female" is compatible with every gender target, with zero bonus points and no
match reason, so such a user is never hard-excluded on gender grounds and never
receives the 30-point gender bonus. -/
theorem c10_nonbinary_always_compatible (t g : String)
    (h1 : strLower (strTrim g) ≠ "")
    (h2 : strLower (strTrim g) ≠ "male")
    (h3 : strLower (strTrim g) ≠ "female") :
    checkGenderCompatibility t g = ⟨true, 0, none⟩ := by
  unfold checkGenderCompatibility
  dsimp only
  split_ifs with hA hB hC hD hE <;> try rfl
  · rw [Bool.and_eq_true, beq_iff_eq] at hB
    exact absurd hB.2 h3
  · rw [Bool.and_eq_true, beq_iff_eq] at hC
    exact absurd hC.2 h2
  · rw [Bool.and_eq_true, beq_iff_eq] at hD
    exact absurd hD.2 h2
  · rw [Bool.and_eq_true, beq_iff_eq] at hE
    exact absurd hE.2 h3

/-- Witness for C10 at the concrete inputs of a non-binary user and a
"Women Only" target. -/
theorem c10_nonbinary_always_compatible_witness :
    checkGenderCompatibility "Women Only" "Non-binary" = ⟨true, 0, none⟩ :=
  c10_nonbinary_always_compatible "Women Only" "Non-binary"
    (by decide) (by decide) (by decide)

/-- C6: when the user's normalized sport is "football", the event's category is
not exactly "football", and the combined category-and-name text contains a
compound-football keyword, the sport-match predicate rejects the event, so it
cannot receive the 80-point sport bonus. -/
theorem c6_compound_football_excluded (userSport eventCategory eventName : String)
    (h1 : strTrim (strLower userSport) = "football")
    (h2 : strTrim (strLower eventCategory) ≠ "football")
    (h3 : footballCompounds.any (fun compound =>
      strIncludes (strTrim (strLower eventCategory) ++ " " ++ strTrim (strLower eventName))
        compound) = true) :
    isSportMatch userSport eventCategory eventName = false := by
  unfold isSportMatch
  rw [h1]
  have hc1 : ¬((("football" : String) == strTrim (strLower eventCategory)) = true) := by
    simp only [beq_iff_eq]
    exact fun h => h2 h.symm
  have hc2 : (("football" : String) == "football") = true := by decide
  rw [if_neg hc1, if_pos hc2, if_pos h3]

/-- Witness for C6 at the concrete scenario: user sport "Football" against an
event with category "American Football" and name "American Football Social". -/
theorem c6_compound_football_excluded_witness :
    isSportMatch "Football" "American Football" "American Football Social" = false :=
  c6_compound_football_excluded "Football" "American Football" "American Football Social"
    (by decide) (by decide) (by decide)

/-- C7 (amended): a booking is counted attended by the stats aggregator iff its
event date is not on-or-after today (a booking with an unparseable event date
passes this gate) and its status either contains an attendance keyword
(attended, completed, confirmed) or contains none of the cancellation keywords
(cancelled, cancel, no-show, noshow); in particular a past booking with status
"Confirmed" counts as attended. -/
theorem c7_attended_characterization (now : Int) (b : Booking) :
    isAttendedBooking now b =
      (!jsGeNow (jsParseDate b.eventDate) now &&
       ((strIncludes (strLower b.status) "attended" ||
         strIncludes (strLower b.status) "completed") ||
        strIncludes (strLower b.status) "confirmed" ||
        !(strIncludes (strLower b.status) "cancelled" ||
          strIncludes (strLower b.status) "cancel" ||
          strIncludes (strLower b.status) "no-show" ||
          strIncludes (strLower b.status) "noshow"))) := by
  unfold isAttendedBooking
  cases hge : jsGeNow (jsParseDate b.eventDate) now
  · cases hk1 : (strIncludes (strLower b.status) "attended" ||
        strIncludes (strLower b.status) "completed") <;>
      cases hk2 : strIncludes (strLower b.status) "confirmed" <;>
        cases hk3 : (strIncludes (strLower b.status) "cancelled" ||
            strIncludes (strLower b.status) "cancel" ||
            strIncludes (strLower b.status) "no-show" ||
            strIncludes (strLower b.status) "noshow") <;>
          simp [hk1, hk2, hk3]
  · simp

/-- Counterexample to C7 as frozen: a past booking whose status contains both an
attendance keyword and a cancellation keyword is counted as attended by the
code, although the claim's characterization ("status does not match a
cancellation/no-show keyword") says it must not be. -/
theorem c7_counterexample :
    isAttendedBooking 0 bookingAttendedCancelled = true ∧
    strIncludes (strLower bookingAttendedCancelled.status) "cancel" = true ∧
    jsParseDate bookingAttendedCancelled.eventDate = some (-1) := by
  refine ⟨by decide, by decide, by decide⟩

theorem jsRound_mono {q r : ℚ} (h : q ≤ r) : jsRound q ≤ jsRound r :=
  Int.floor_le_floor (by linarith)

theorem dp_b5_ub (a : ℚ) : jsRound (10 + min (a / 39) 1 * 14) ≤ 24 := by
  unfold jsRound
  have h1 : min (a / 39) 1 ≤ 1 := min_le_right _ _
  refine Int.lt_add_one_iff.mp (Int.floor_lt.mpr ?_)
  push_cast
  nlinarith

theorem dp_b4_lb (b : ℚ) (h : 40 ≤ b) : 25 ≤ jsRound (25 + (b - 40) / (59 - 40) * 14) := by
  unfold jsRound
  have h0 : 0 ≤ (b - 40) / (59 - 40) := div_nonneg (by linarith) (by norm_num)
  refine Int.le_floor.mpr ?_
  push_cast
  nlinarith

theorem dp_b4_ub (a : ℚ) (ha : a < 60) : jsRound (25 + (a - 40) / (59 - 40) * 14) ≤ 40 := by
  unfold jsRound
  refine Int.lt_add_one_iff.mp (Int.floor_lt.mpr ?_)
  push_cast
  ring_nf
  linarith

theorem dp_b3_lb (b : ℚ) (h : 60 ≤ b) : 40 ≤ jsRound (40 + (b - 60) / (89 - 60) * 19) := by
  unfold jsRound
  have h0 : 0 ≤ (b - 60) / (89 - 60) := div_nonneg (by linarith) (by norm_num)
  refine Int.le_floor.mpr ?_
  push_cast
  nlinarith

theorem dp_b3_ub (a : ℚ) (ha : a < 90) : jsRound (40 + (a - 60) / (89 - 60) * 19) ≤ 60 := by
  unfold jsRound
  refine Int.lt_add_one_iff.mp (Int.floor_lt.mpr ?_)
  push_cast
  ring_nf
  linarith

theorem dp_b2_lb (b : ℚ) (h : 90 ≤ b) : 60 ≤ jsRound (60 + (b - 90) / (119 - 90) * 19) := by
  unfold jsRound
  have h0 : 0 ≤ (b - 90) / (119 - 90) := div_nonneg (by linarith) (by norm_num)
  refine Int.le_floor.mpr ?_
  push_cast
  nlinarith

theorem dp_b2_ub (a : ℚ) (ha : a < 120) : jsRound (60 + (a - 90) / (119 - 90) * 19) ≤ 80 := by
  unfold jsRound
  refine Int.lt_add_one_iff.mp (Int.floor_lt.mpr ?_)
  push_cast
  ring_nf
  linarith

theorem dp_b1_lb (b : ℚ) (h : 120 ≤ b) :
    80 ≤ jsRound (80 + min ((b - 120) / (260 - 120)) 1 * 20) := by
  unfold jsRound
  have h0 : 0 ≤ min ((b - 120) / (260 - 120)) 1 :=
    le_min (div_nonneg (by linarith) (by norm_num)) (by norm_num)
  refine Int.le_floor.mpr ?_
  push_cast
  nlinarith

theorem calculateDisplayPercentage_mono (a b : ℚ) (h : a ≤ b) :
    calculateDisplayPercentage a ≤ calculateDisplayPercentage b := by
  unfold calculateDisplayPercentage
  rcases le_or_lt 120 a with ha1 | ha1
  · rw [if_pos ha1, if_pos (le_trans ha1 h)]
    exact jsRound_mono (by gcongr)
  · rcases le_or_lt 90 a with ha2 | ha2
    · rw [if_neg (not_le.mpr ha1), if_pos ha2]
      rcases le_or_lt 120 b with hb1 | hb1
      · rw [if_pos hb1]
        exact le_trans (dp_b2_ub a ha1) (dp_b1_lb b hb1)
      · rw [if_neg (not_le.mpr hb1), if_pos (le_trans ha2 h)]
        exact jsRound_mono (by gcongr)
    · rcases le_or_lt 60 a with ha3 | ha3
      · rw [if_neg (not_le.mpr ha1), if_neg (not_le.mpr ha2), if_pos ha3]
        rcases le_or_lt 120 b with hb1 | hb1
        · rw [if_pos hb1]
          exact le_trans (dp_b3_ub a ha2)
            (le_trans (by norm_num) (dp_b1_lb b hb1))
        · rcases le_or_lt 90 b with hb2 | hb2
          · rw [if_neg (not_le.mpr hb1), if_pos hb2]
            exact le_trans (dp_b3_ub a ha2) (dp_b2_lb b hb2)
          · rw [if_neg (not_le.mpr hb1), if_neg (not_le.mpr hb2), if_pos (le_trans ha3 h)]
            exact jsRound_mono (by gcongr)
      · rcases le_or_lt 40 a with ha4 | ha4
        · rw [if_neg (not_le.mpr ha1), if_neg (not_le.mpr ha2), if_neg (not_le.mpr ha3),
            if_pos ha4]
          rcases le_or_lt 120 b with hb1 | hb1
          · rw [if_pos hb1]
            exact le_trans (dp_b4_ub a ha3)
              (le_trans (by norm_num) (dp_b1_lb b hb1))
          · rcases le_or_lt 90 b with hb2 | hb2
            · rw [if_neg (not_le.mpr hb1), if_pos hb2]
              exact le_trans (dp_b4_ub a ha3)
                (le_trans (by norm_num) (dp_b2_lb b hb2))
            · rcases le_or_lt 60 b with hb3 | hb3
              · rw [if_neg (not_le.mpr hb1), if_neg (not_le.mpr hb2), if_pos hb3]
                exact le_trans (dp_b4_ub a ha3) (dp_b3_lb b hb3)
              · rw [if_neg (not_le.mpr hb1), if_neg (not_le.mpr hb2),
                  if_neg (not_le.mpr hb3), if_pos (le_trans ha4 h)]
                exact jsRound_mono (by gcongr)
        · rw [if_neg (not_le.mpr ha1), if_neg (not_le.mpr ha2), if_neg (not_le.mpr ha3),
            if_neg (not_le.mpr ha4)]
          rcases le_or_lt 120 b with hb1 | hb1
          · rw [if_pos hb1]
            exact le_trans (dp_b5_ub a) (le_trans (by norm_num) (dp_b1_lb b hb1))
          · rcases le_or_lt 90 b with hb2 | hb2
            · rw [if_neg (not_le.mpr hb1), if_pos hb2]
              exact le_trans (dp_b5_ub a) (le_trans (by norm_num) (dp_b2_lb b hb2))
            · rcases le_or_lt 60 b with hb3 | hb3
              · rw [if_neg (not_le.mpr hb1), if_neg (not_le.mpr hb2), if_pos hb3]
                exact le_trans (dp_b5_ub a) (le_trans (by norm_num) (dp_b3_lb b hb3))
              · rcases le_or_lt 40 b with hb4 | hb4
                · rw [if_neg (not_le.mpr hb1), if_neg (not_le.mpr hb2),
                    if_neg (not_le.mpr hb3), if_pos hb4]
                  exact le_trans (dp_b5_ub a) (le_trans (by norm_num) (dp_b4_lb b hb4))
                · rw [if_neg (not_le.mpr hb1), if_neg (not_le.mpr hb2),
                    if_neg (not_le.mpr hb3), if_neg (not_le.mpr hb4)]
                  exact jsRound_mono (by gcongr)

/-- C5: the display-percentage curve maps score 120 to exactly 80 and score 0
to exactly 10, and it is non-decreasing on non-negative integer scores. -/
theorem c5_display_percentage_boundaries_mono (a b : ℕ) (hab : a ≤ b) :
    calculateDisplayPercentage (120 : ℚ) = 80 ∧
    calculateDisplayPercentage (0 : ℚ) = 10 ∧
    calculateDisplayPercentage ((a : ℕ) : ℚ) ≤ calculateDisplayPercentage ((b : ℕ) : ℚ) := by
  refine ⟨?_, ?_, ?_⟩
  · unfold calculateDisplayPercentage jsRound
    rw [if_pos (by norm_num : (120:ℚ) ≤ 120)]
    exact Int.floor_eq_iff.mpr ⟨by norm_num [min_def], by norm_num [min_def]⟩
  · unfold calculateDisplayPercentage jsRound
    rw [if_neg (by norm_num : ¬(120:ℚ) ≤ 0), if_neg (by norm_num : ¬(90:ℚ) ≤ 0),
      if_neg (by norm_num : ¬(60:ℚ) ≤ 0), if_neg (by norm_num : ¬(40:ℚ) ≤ 0)]
    exact Int.floor_eq_iff.mpr ⟨by norm_num [min_def], by norm_num [min_def]⟩
  · exact calculateDisplayPercentage_mono _ _ (by exact_mod_cast hab)

/-- Witness for C5 at the concrete scores 3 and 125. -/
theorem c5_display_percentage_boundaries_mono_witness :
    calculateDisplayPercentage ((3 : ℕ) : ℚ) ≤ calculateDisplayPercentage ((125 : ℕ) : ℚ) :=
  (c5_display_percentage_boundaries_mono 3 125 (by norm_num)).2.2

theorem dedupLoop_mem (events : List Event) :
    ∀ (l : List RecommendationCard) (seen : List String) (acc : List RecommendationCard)
      (x : RecommendationCard), x ∈ dedupLoop events seen acc l → x ∈ acc ∨ x ∈ l := by
  intro l
  induction l with
  | nil =>
    intro seen acc x h
    simp only [dedupLoop] at h
    exact Or.inl (List.mem_reverse.mp h)
  | cons r rest ih =>
    intro seen acc x h
    simp only [dedupLoop] at h
    split at h
    · rcases ih _ _ _ h with h' | h'
      · exact Or.inl h'
      · exact Or.inr (List.mem_cons_of_mem _ h')
    · split at h
      · rcases List.mem_cons.mp (List.mem_reverse.mp h) with h' | h'
        · exact Or.inr (h' ▸ List.mem_cons_self _ _)
        · exact Or.inl h'
      · rcases ih _ _ _ h with h' | h'
        · rcases List.mem_cons.mp h' with h'' | h''
          · exact Or.inr (h'' ▸ List.mem_cons_self _ _)
          · exact Or.inl h''
        · exact Or.inr (List.mem_cons_of_mem _ h')

theorem dedupLoop_length (events : List Event) :
    ∀ (l : List RecommendationCard) (seen : List String) (acc : List RecommendationCard),
      acc.length ≤ 4 → (dedupLoop events seen acc l).length ≤ 5 := by
  intro l
  induction l with
  | nil =>
    intro seen acc hacc
    simp only [dedupLoop, List.length_reverse]
    omega
  | cons r rest ih =>
    intro seen acc hacc
    simp only [dedupLoop]
    split
    · exact ih _ _ hacc
    · split
      · next h5 =>
        simp only [List.length_cons] at h5
        simp only [List.length_reverse, List.length_cons]
        omega
      · next h5 =>
        exact ih _ _ (by simp only [List.length_cons] at h5 ⊢; omega)

theorem dedupLoop_sublist (events : List Event) :
    ∀ (l : List RecommendationCard) (seen : List String) (acc : List RecommendationCard),
      ∃ s, s.Sublist l ∧ dedupLoop events seen acc l = acc.reverse ++ s := by
  intro l
  induction l with
  | nil =>
    intro seen acc
    exact ⟨[], List.nil_sublist _, by simp [dedupLoop]⟩
  | cons r rest ih =>
    intro seen acc
    simp only [dedupLoop]
    split
    · obtain ⟨s, hs, he⟩ := ih seen acc
      exact ⟨s, hs.cons r, he⟩
    · split
      · exact ⟨[r], (List.nil_sublist rest).cons₂ r, by rw [List.reverse_cons]⟩
      · obtain ⟨s, hs, he⟩ := ih (keyOfRec events r :: seen) (r :: acc)
        refine ⟨r :: s, hs.cons₂ r, ?_⟩
        rw [he, List.reverse_cons, List.append_assoc, List.singleton_append]

theorem contains_of_mem {l : List String} {a : String} (h : a ∈ l) : l.contains a = true := by
  exact List.elem_eq_true_of_mem h

theorem dedupLoop_keys_nodup (events : List Event) :
    ∀ (l : List RecommendationCard) (seen : List String) (acc : List RecommendationCard),
      ((acc.map (keyOfRec events)).Nodup) →
      (∀ k ∈ acc.map (keyOfRec events), k ∈ seen) →
      ((dedupLoop events seen acc l).map (keyOfRec events)).Nodup := by
  intro l
  induction l with
  | nil =>
    intro seen acc h1 _
    simp only [dedupLoop, List.map_reverse, List.nodup_reverse]
    exact h1
  | cons r rest ih =>
    intro seen acc h1 h2
    simp only [dedupLoop]
    split
    · exact ih _ _ h1 h2
    · next hnotseen =>
      have hkey : keyOfRec events r ∉ acc.map (keyOfRec events) := by
        intro hmem
        exact hnotseen (contains_of_mem (h2 _ hmem))
      split
      · simp only [List.map_reverse, List.nodup_reverse, List.map_cons, List.nodup_cons]
        exact ⟨hkey, h1⟩
      · refine ih _ _ ?_ ?_
        · simp only [List.map_cons, List.nodup_cons]
          exact ⟨hkey, h1⟩
        · intro k hk
          simp only [List.map_cons, List.mem_cons] at hk
          rcases hk with h | h
          · exact h ▸ List.mem_cons_self _ _
          · exact List.mem_cons_of_mem _ (h2 _ h)

theorem mem_qualityRecommendations {now : Int} {events : List Event} {profile : UserProfile}
    {bookings : List Booking} {x : RecommendationCard}
    (h : x ∈ qualityRecommendations now events profile bookings) :
    x ∈ sortedScored now events profile bookings ∧ MIN_RECOMMENDATION_SCORE ≤ x.score := by
  unfold qualityRecommendations at h
  rw [List.mem_filter] at h
  exact ⟨h.1, by simpa using h.2⟩

theorem mem_generateRecommendations_exists (events : List Event) (profile : UserProfile)
    (bookings : List Booking) (now : Int) {x : RecommendationCard}
    (hx : x ∈ generateRecommendations events profile bookings now) :
    ∃ e, e ∈ events ∧
      (checkGenderCompatibility e.genderTarget profile.gender).isCompatible = true ∧
      x = scoreEvent now profile (userRegionOf profile) e := by
  unfold generateRecommendations at hx
  rcases dedupLoop_mem events _ _ _ _ hx with h | h
  · simp at h
  · have h2 := (mem_qualityRecommendations h).1
    unfold sortedScored at h2
    rw [List.mem_insertionSort] at h2
    rcases List.mem_map.mp h2 with ⟨e, he, hxe⟩
    unfold recommendationCandidates at he
    rw [List.mem_filter] at he
    obtain ⟨he1, hcompat⟩ := he
    rw [List.mem_filter] at he1
    rw [List.mem_filter] at he1
    exact ⟨e, he1.1.1, hcompat, hxe.symm⟩

/-- C2: every returned recommendation has score at least 60, the output has at
most five entries, no two entries share a deduplication key (trimmed session
template id of the event found by the card's event id, falling back to the
event id), and the output is a sublist of the quality-filtered score-sorted
list, so the first occurrence per key in score-descending order is kept. -/
theorem c2_output_conditions (events : List Event) (profile : UserProfile)
    (bookings : List Booking) (now : Int) :
    (∀ x ∈ generateRecommendations events profile bookings now,
      MIN_RECOMMENDATION_SCORE ≤ x.score) ∧
    (generateRecommendations events profile bookings now).length ≤ 5 ∧
    ((generateRecommendations events profile bookings now).map (keyOfRec events)).Nodup ∧
    (generateRecommendations events profile bookings now).Sublist
      (qualityRecommendations now events profile bookings) := by
  refine ⟨?_, ?_, ?_, ?_⟩
  · intro x hx
    unfold generateRecommendations at hx
    rcases dedupLoop_mem events _ _ _ _ hx with h | h
    · simp at h
    · exact (mem_qualityRecommendations h).2
  · exact dedupLoop_length events _ _ _ (by simp)
  · exact dedupLoop_keys_nodup events _ _ _ (by simp) (by simp)
  · unfold generateRecommendations
    obtain ⟨s, hs, he⟩ := dedupLoop_sublist events
      (qualityRecommendations now events profile bookings) [] []
    rw [he]
    simpa using hs

/-- C1 (amended): for a user whose normalized gender is "male", every output
card comes from a catalog event whose normalized gender target does not contain
"women only"; for a user whose normalized gender is "female", every output card
comes from an event whose target neither equals "men"/"men only" nor contains
"men only" without also containing "women only" (the target "women only" itself
contains the substring "men only" but is governed by the women-only rule, so it
is allowed for female users). -/
theorem c1_gender_hard_exclusion (events : List Event) (bookings : List Booking)
    (now : Int) (profileM profileF : UserProfile)
    (hm : strLower (strTrim profileM.gender) = "male")
    (hf : strLower (strTrim profileF.gender) = "female") :
    ((generateRecommendations events profileM bookings now).all (fun x =>
      events.any (fun e =>
        decide (x = scoreEvent now profileM (userRegionOf profileM) e) &&
        !strIncludes (strLower (strTrim e.genderTarget)) "women only")) = true) ∧
    ((generateRecommendations events profileF bookings now).all (fun x =>
      events.any (fun e =>
        decide (x = scoreEvent now profileF (userRegionOf profileF) e) &&
        !(strLower (strTrim e.genderTarget) == "men" ||
          strLower (strTrim e.genderTarget) == "men only" ||
          (strIncludes (strLower (strTrim e.genderTarget)) "men only" &&
           !strIncludes (strLower (strTrim e.genderTarget)) "women only")))) = true) := by
  constructor
  · rw [List.all_eq_true]
    intro x hx
    obtain ⟨e, he, hcompat, hxe⟩ := mem_generateRecommendations_exists _ _ _ _ hx
    rw [List.any_eq_true]
    refine ⟨e, he, ?_⟩
    rw [Bool.and_eq_true, decide_eq_true_eq]
    refine ⟨hxe, ?_⟩
    rw [genderCompat_male_no_women_only _ _ hm hcompat]
    rfl
  · rw [List.all_eq_true]
    intro x hx
    obtain ⟨e, he, hcompat, hxe⟩ := mem_generateRecommendations_exists _ _ _ _ hx
    rw [List.any_eq_true]
    refine ⟨e, he, ?_⟩
    rw [Bool.and_eq_true, decide_eq_true_eq]
    refine ⟨hxe, ?_⟩
    rw [genderCompat_female_no_men _ _ hf hcompat]
    rfl

/-- Witness for C1 at concrete inputs: a male and a female profile against a
catalog holding one "Women Only" football event. -/
theorem c1_gender_hard_exclusion_witness :
    ((generateRecommendations [eventWomenOnly] profileMale [] 0).all (fun x =>
      [eventWomenOnly].any (fun e =>
        decide (x = scoreEvent 0 profileMale (userRegionOf profileMale) e) &&
        !strIncludes (strLower (strTrim e.genderTarget)) "women only")) = true) ∧
    ((generateRecommendations [eventWomenOnly] profileC3 [] 0).all (fun x =>
      [eventWomenOnly].any (fun e =>
        decide (x = scoreEvent 0 profileC3 (userRegionOf profileC3) e) &&
        !(strLower (strTrim e.genderTarget) == "men" ||
          strLower (strTrim e.genderTarget) == "men only" ||
          (strIncludes (strLower (strTrim e.genderTarget)) "men only" &&
           !strIncludes (strLower (strTrim e.genderTarget)) "women only")))) = true) :=
  c1_gender_hard_exclusion [eventWomenOnly] [] 0 profileMale profileC3
    (by decide) (by decide)

/-- Counterexample to C1 as frozen: the normalized target "women only" contains
the substring "men only", yet the "Women Only" event is recommended to a female
user, contradicting the claim that for a female user no event whose gender
target contains "men only" ever appears in the output. -/
theorem c1_counterexample :
    strIncludes (strLower (strTrim eventWomenOnly.genderTarget)) "men only" = true ∧
    strLower (strTrim profileC3.gender) = "female" ∧
    (generateRecommendations [eventWomenOnly] profileC3 [] 0).map
      (fun x => x.eventID) = [eventWomenOnly.eventID] := by
  refine ⟨by decide, by decide, by decide⟩

/-- C3: for the spec's concrete scenario (Hackney football-preferring female
user, one eligible future active Football event in Hackney with empty gender
target and price 8) the scorer produces exactly score 125 and display
percentage 81. -/
theorem c3_concrete_scenario :
    (generateRecommendations [eventC3] profileC3 [] 0).map
      (fun x => (x.score, x.displayPercentage)) = [(125, 81)] := by
  have hfin : finalScore profileC3 (userRegionOf profileC3) eventC3 = 125 := by decide
  have hdisp : (scoreEvent 0 profileC3 (userRegionOf profileC3) eventC3).displayPercentage
      = 81 := by
    show calculateDisplayPercentage
      ((finalScore profileC3 (userRegionOf profileC3) eventC3 : ℕ) : ℚ) = 81
    rw [hfin]
    rw [show ((125 : ℕ) : ℚ) = 125 by norm_num]
    unfold calculateDisplayPercentage jsRound
    rw [if_pos (by norm_num : (120 : ℚ) ≤ 125)]
    exact Int.floor_eq_iff.mpr ⟨by norm_num [min_def], by norm_num [min_def]⟩
  have hscore : (scoreEvent 0 profileC3 (userRegionOf profileC3) eventC3).score = 125 := hfin
  have hpipe : generateRecommendations [eventC3] profileC3 [] 0
      = [scoreEvent 0 profileC3 (userRegionOf profileC3) eventC3] := by rfl
  rw [hpipe]
  simp only [List.map_cons, List.map_nil]
  rw [hscore, hdisp]

/-- C4: when the user has at least one preferred sport and none matched, the
final score is the integer floor of 40% of the sum of all the other additive
factor contributions, applied exactly once after all additive factors; when the
preferred-sports list is empty, no reduction is applied and the score is the
plain factor sum. -/
theorem c4_no_sport_penalty (now : Int) (profile : UserProfile) (userRegion : Option String)
    (event : Event) :
    (profile.preferredSports ≠ [] → hasSportMatchB profile event = false →
      (scoreEvent now profile userRegion event).score
        = nonSportPoints profile userRegion event * 2 / 5) ∧
    (profile.preferredSports = [] →
      (scoreEvent now profile userRegion event).score
        = nonSportPoints profile userRegion event) := by
  constructor
  · intro hne hmatch
    show finalScore profile userRegion event = _
    unfold finalScore baseScore
    rw [hmatch]
    have hempty : profile.preferredSports.isEmpty = false := by
      cases hl : profile.preferredSports
      · exact absurd hl hne
      · rfl
    rw [hempty]
    simp
  · intro hnil
    show finalScore profile userRegion event = _
    unfold finalScore baseScore hasSportMatchB
    rw [hnil]
    simp

/-- Witness for C4 with a Football-preferring user and a yoga event. -/
theorem c4_no_sport_penalty_witness :
    (scoreEvent 0 profileC4 none eventC4).score
      = nonSportPoints profileC4 none eventC4 * 2 / 5 :=
  (c4_no_sport_penalty 0 profileC4 none eventC4).1 (by decide) (by decide)

/-- C8: the pre-pagination past count is reported as `pastSessionsTotal`
independently of the pagination arguments, the returned past page is exactly
the slice `[(page-1)*pageSize, (page-1)*pageSize+pageSize)` of the
date-descending-sorted past list (hence has at most `pageSize` entries), and
the upcoming list is returned unpaginated. -/
theorem c8_pagination (bookings : List Booking) (events : List Event) (now : Int)
    (page pageSize page2 pageSize2 : ℕ) (hp : 1 ≤ page) (hs : 1 ≤ pageSize) :
    (separateSessions bookings events now page pageSize).pastTotal
      = (sessionPartition now events bookings).2.length ∧
    (separateSessions bookings events now page2 pageSize2).pastTotal
      = (separateSessions bookings events now page pageSize).pastTotal ∧
    (separateSessions bookings events now page pageSize).past
      = ((sortedPastAll now events bookings).drop ((page - 1) * pageSize)).take pageSize ∧
    (separateSessions bookings events now page pageSize).past.length ≤ pageSize ∧
    (separateSessions bookings events now page pageSize).upcoming
      = sortedUpcoming now events bookings := by
  refine ⟨?_, rfl, rfl, ?_, rfl⟩
  · show (sortedPastAll now events bookings).length = _
    unfold sortedPastAll
    exact List.length_insertionSort _ _
  · show (((sortedPastAll now events bookings).drop ((page - 1) * pageSize)).take
      pageSize).length ≤ pageSize
    exact List.length_take_le _ _

/-- Witness for C8 at a single past booking with pages (1,10) and (3,7). -/
theorem c8_pagination_witness :
    (separateSessions [bookingBase] [] 0 1 10).pastTotal
      = (sessionPartition 0 [] [bookingBase]).2.length ∧
    (separateSessions [bookingBase] [] 0 3 7).pastTotal
      = (separateSessions [bookingBase] [] 0 1 10).pastTotal ∧
    (separateSessions [bookingBase] [] 0 1 10).past
      = ((sortedPastAll 0 [] [bookingBase]).drop ((1 - 1) * 10)).take 10 ∧
    (separateSessions [bookingBase] [] 0 1 10).past.length ≤ 10 ∧
    (separateSessions [bookingBase] [] 0 1 10).upcoming
      = sortedUpcoming 0 [] [bookingBase] :=
  c8_pagination [bookingBase] [] 0 1 10 3 7 (by decide) (by decide)

theorem sessionCardOf_bookingID (now : Int) (events : List Event) (b : Booking) :
    (sessionCardOf now events b).bookingID = b.bookingID := rfl

theorem sepLoop_eq (now : Int) (events : List Event) :
    ∀ (l : List Booking) (seen : List String),
      sepLoop now events seen l =
        (((dedupBookingsFrom seen l).filter (fun b => !isPastBooking now events b)).map
           (sessionCardOf now events),
         ((dedupBookingsFrom seen l).filter (fun b => isPastBooking now events b)).map
           (sessionCardOf now events)) := by
  intro l
  induction l with
  | nil =>
    intro seen
    simp [sepLoop, dedupBookingsFrom]
  | cons b rest ih =>
    intro seen
    simp only [sepLoop, dedupBookingsFrom]
    split
    · exact ih seen
    · rw [ih (b.bookingID :: seen)]
      cases hp : isPastBooking now events b
      · simp [List.filter_cons, hp]
      · simp [List.filter_cons, hp]

theorem dedupBookingsFrom_ids :
    ∀ (l : List Booking) (seen : List String),
      (∀ x ∈ dedupBookingsFrom seen l, x.bookingID ∉ seen) ∧
      ((dedupBookingsFrom seen l).map (fun b => b.bookingID)).Nodup := by
  intro l
  induction l with
  | nil =>
    intro seen
    refine ⟨?_, ?_⟩ <;> simp [dedupBookingsFrom]
  | cons b rest ih =>
    intro seen
    simp only [dedupBookingsFrom]
    split
    · exact ih seen
    · next hns =>
      refine ⟨?_, ?_⟩
      · intro x hx
        rcases List.mem_cons.mp hx with h | h
        · intro hmem
          rw [h] at hmem
          exact hns (contains_of_mem hmem)
        · intro hmem
          exact (ih (b.bookingID :: seen)).1 x h (List.mem_cons_of_mem _ hmem)
      · simp only [List.map_cons, List.nodup_cons]
        constructor
        · intro hmem
          rcases List.mem_map.mp hmem with ⟨x, hx, hid⟩
          exact (ih (b.bookingID :: seen)).1 x hx (hid ▸ List.mem_cons_self _ _)
        · exact (ih (b.bookingID :: seen)).2

theorem contains_eq_false_of_not_mem {l : List String} {a : String} (h : a ∉ l) :
    l.contains a = false := by
  cases hc : l.contains a
  · rfl
  · exact absurd (List.mem_of_elem_eq_true hc) h

/-- C9 (amended): after deduplication by booking id (ids are pairwise distinct),
the partition buckets are exactly the card images of the past/not-past split of
the unique bookings, every unique booking's id appears in exactly one of the
returned upcoming list and the pre-pagination past list, and a booking whose
resolved date — event date when the event is found and its date field is
non-empty, otherwise the booking snapshot date — is unparseable is classified
as upcoming. -/
theorem c9_partition_completeness (now : Int) (events : List Event) (bookings : List Booking) :
    ((dedupBookings bookings).map (fun b => b.bookingID)).Nodup ∧
    (sessionPartition now events bookings).1
      = ((dedupBookings bookings).filter (fun b => !isPastBooking now events b)).map
          (sessionCardOf now events) ∧
    (sessionPartition now events bookings).2
      = ((dedupBookings bookings).filter (fun b => isPastBooking now events b)).map
          (sessionCardOf now events) ∧
    (∀ b ∈ dedupBookings bookings,
      ((sortedUpcoming now events bookings).map (fun c => c.bookingID)).contains b.bookingID
        = !(((sortedPastAll now events bookings).map (fun c => c.bookingID)).contains
            b.bookingID)) ∧
    (∀ b ∈ dedupBookings bookings, resolvedEventDate events b = none →
      isPastBooking now events b = false) := by
  have hids := dedupBookingsFrom_ids bookings []
  have hpart := sepLoop_eq now events bookings []
  have h1 : (sessionPartition now events bookings).1
      = ((dedupBookings bookings).filter (fun b => !isPastBooking now events b)).map
          (sessionCardOf now events) := by
    show (sepLoop now events [] bookings).1 = _
    rw [hpart]
    rfl
  have h2 : (sessionPartition now events bookings).2
      = ((dedupBookings bookings).filter (fun b => isPastBooking now events b)).map
          (sessionCardOf now events) := by
    show (sepLoop now events [] bookings).2 = _
    rw [hpart]
    rfl
  have hu : ∀ bid : String,
      bid ∈ (sortedUpcoming now events bookings).map (fun c => c.bookingID) ↔
      ∃ x ∈ dedupBookings bookings,
        isPastBooking now events x = false ∧ x.bookingID = bid := by
    intro bid
    unfold sortedUpcoming
    constructor
    · intro h
      rcases List.mem_map.mp h with ⟨c, hc, hcid⟩
      rw [List.mem_insertionSort, h1] at hc
      rcases List.mem_map.mp hc with ⟨x, hx, hxc⟩
      rw [List.mem_filter] at hx
      refine ⟨x, hx.1, by simpa using hx.2, ?_⟩
      rw [← hcid, ← hxc]
      rfl
    · rintro ⟨x, hx, hpast, hid⟩
      have hmem : sessionCardOf now events x ∈ (sessionPartition now events bookings).1 := by
        rw [h1]
        exact List.mem_map_of_mem _ (List.mem_filter.mpr ⟨hx, by simp [hpast]⟩)
      have hmem2 := List.mem_map_of_mem (fun c => c.bookingID)
        ((List.mem_insertionSort upcomingLe).mpr hmem)
      simpa [sessionCardOf_bookingID, hid] using hmem2
  have hpa : ∀ bid : String,
      bid ∈ (sortedPastAll now events bookings).map (fun c => c.bookingID) ↔
      ∃ x ∈ dedupBookings bookings,
        isPastBooking now events x = true ∧ x.bookingID = bid := by
    intro bid
    unfold sortedPastAll
    constructor
    · intro h
      rcases List.mem_map.mp h with ⟨c, hc, hcid⟩
      rw [List.mem_insertionSort, h2] at hc
      rcases List.mem_map.mp hc with ⟨x, hx, hxc⟩
      rw [List.mem_filter] at hx
      refine ⟨x, hx.1, hx.2, ?_⟩
      rw [← hcid, ← hxc]
      rfl
    · rintro ⟨x, hx, hpast, hid⟩
      have hmem : sessionCardOf now events x ∈ (sessionPartition now events bookings).2 := by
        rw [h2]
        exact List.mem_map_of_mem _ (List.mem_filter.mpr ⟨hx, hpast⟩)
      have hmem2 := List.mem_map_of_mem (fun c => c.bookingID)
        ((List.mem_insertionSort pastLe).mpr hmem)
      simpa [sessionCardOf_bookingID, hid] using hmem2
  refine ⟨hids.2, h1, h2, ?_, ?_⟩
  · intro b hb
    cases hpast : isPastBooking now events b
    · have hmu : b.bookingID ∈ (sortedUpcoming now events bookings).map (fun c => c.bookingID) :=
        (hu _).mpr ⟨b, hb, hpast, rfl⟩
      have hmp : b.bookingID ∉ (sortedPastAll now events bookings).map (fun c => c.bookingID) := by
        intro hmem
        rcases (hpa _).mp hmem with ⟨x, hx, hxpast, hxid⟩
        have hxb : x = b := List.inj_on_of_nodup_map hids.2 hx hb hxid
        rw [hxb, hpast] at hxpast
        exact absurd hxpast (by simp)
      rw [contains_of_mem hmu, contains_eq_false_of_not_mem hmp]
      rfl
    · have hmp : b.bookingID ∈ (sortedPastAll now events bookings).map (fun c => c.bookingID) :=
        (hpa _).mpr ⟨b, hb, hpast, rfl⟩
      have hmu : b.bookingID ∉ (sortedUpcoming now events bookings).map (fun c => c.bookingID) := by
        intro hmem
        rcases (hu _).mp hmem with ⟨x, hx, hxpast, hxid⟩
        have hxb : x = b := List.inj_on_of_nodup_map hids.2 hx hb hxid
        rw [hxb, hpast] at hxpast
        exact absurd hxpast (by simp)
      rw [contains_of_mem hmp, contains_eq_false_of_not_mem hmu]
      rfl
  · intro b _ hres
    unfold isPastBooking
    rw [hres]
    rfl

/-- Counterexample to C9 as frozen: a booking whose referenced event exists but
has an empty raw date string. The claim's resolved date ("event date if the
event is found") is unparseable, so the claim classifies the booking as
upcoming; the code's `event?.date || booking.eventDate` falls back to the past
snapshot date and classifies it as past. -/
theorem c9_counterexample :
    (jsMapGet [eventEmptyDate] bookingSnapshotPast.eventID).isSome = true ∧
    jsParseDate eventEmptyDate.date = none ∧
    jsParseDate bookingSnapshotPast.eventDate = some (-1) ∧
    isPastBooking 0 [eventEmptyDate] bookingSnapshotPast = true ∧
    (sessionPartition 0 [eventEmptyDate] [bookingSnapshotPast]).1 = [] ∧
    ((sessionPartition 0 [eventEmptyDate] [bookingSnapshotPast]).2.map
      (fun c => c.bookingID)) = ["B9"] := by
  exact ⟨by decide, by decide, by decide, by decide, by decide, by decide⟩
